import Mathlib

/-
Verification of the parallel multi-host remote-execution engine of
`rack_tool/multi_tool.py` (class `RemoteOperation`, the fan-out handlers and
`main`).  The Python code is shallowly embedded: every connect attempt, every
remote command run, and every local file operation is an input of the model
(an environment value), and the embedding reproduces the control flow of the
source, including the semantics of the `@contextmanager` generator
`_get_connection` under `contextlib` (a generator that yields a second time
after `gen.throw` makes `__exit__` raise
`RuntimeError("generator didn't stop after throw()")`).
-/

namespace MultiTool

/-- Models a Python exception value as seen by `multi_tool.py`: the
constructor distinguishes `paramiko.AuthenticationException` (caught by a
dedicated `except` clause) and the `RuntimeError` raised by `contextlib`
from any other `Exception`; the payload is `str(e)`. -/
inductive PyErr where
  | err : String → PyErr
  | authErr : String → PyErr
  | runtimeErr : String → PyErr
deriving DecidableEq

/-- Models `str(e)` for an exception value. -/
def PyErr.msg : PyErr → String
  | .err m => m
  | .authErr m => m
  | .runtimeErr m => m

/-- Constant `CONNECTION_RETRIES` of multi_tool.py (line 19). -/
def CONNECTION_RETRIES : Nat := 3

/-- Constant `RETRY_DELAY_SECONDS` of multi_tool.py (line 20). -/
def RETRY_DELAY_SECONDS : Nat := 5

/-- Constant `MAX_WORKERS` of multi_tool.py (line 18). -/
def MAX_WORKERS : Nat := 10

/-- Observable outcome of one `with self._get_connection() as client: <body>`
statement: the value produced or exception raised, the number of
`client.connect` calls, the number of `time.sleep` calls, whether the body
ran, and whether `client.close()` was invoked before control returned. -/
structure WithOut (β : Type) where
  res : Except PyErr β
  connects : Nat
  sleeps : Nat
  bodyRan : Bool
  closed : Bool

/-- Models the `for attempt in range(CONNECTION_RETRIES)` loop of
`_get_connection` (multi_tool.py lines 42-55) combined with the `contextlib`
machinery of the surrounding `with` statement.  The argument list holds the
remaining attempt indices; `connect a` is the outcome of the `client.connect`
call at attempt `a` (`none` = success); `body` is the outcome of the with
statement's body, which runs at the first successful connect (`yield`).
`bodyThrown` records that the body already ran and raised: the exception was
thrown into the generator at the `yield`, caught by `except Exception`, and
the loop went on; if a later connect succeeds the generator yields a second
time, upon which `contextlib` raises
`RuntimeError("generator didn't stop after throw()")`; if the loop ends,
`raise last_exception` re-raises whatever failed last.  The generator's
`finally` (and, on the RuntimeError path, CPython's prompt finalization of
the abandoned generator) runs `client.close()` on every path. -/
def genLoop (connect : Nat → Option PyErr) (body : Except PyErr β) :
    List Nat → Bool → Option PyErr → WithOut β
  | [], bodyThrown, lastExc =>
      { res := .error (lastExc.getD (.err "TypeError: exceptions must derive from BaseException")),
        connects := 0, sleeps := 0, bodyRan := bodyThrown, closed := true }
  | a :: rest, bodyThrown, _lastExc =>
      match connect a with
      | some e =>
          let r := genLoop connect body rest bodyThrown (some e)
          { r with connects := r.connects + 1,
                   sleeps := r.sleeps + (if rest.isEmpty then 0 else 1) }
      | none =>
          if bodyThrown then
            { res := .error (.runtimeErr "generator didn\x27t stop after throw()"),
              connects := 1, sleeps := 0, bodyRan := true, closed := true }
          else
            match body with
            | .ok b =>
                { res := .ok b, connects := 1, sleeps := 0, bodyRan := true, closed := true }
            | .error e =>
                let r := genLoop connect body rest true (some e)
                { r with connects := r.connects + 1,
                         sleeps := r.sleeps + (if rest.isEmpty then 0 else 1) }

/-- Models one full `with self._get_connection() as client: <body>` statement
(multi_tool.py lines 30-58). -/
def withConn (connect : Nat → Option PyErr) (body : Except PyErr β) : WithOut β :=
  genLoop connect body (List.range CONNECTION_RETRIES) false none

/-- Models the remote side of one `client.exec_command` run: either the
command terminates (`done stdoutLines stderrLines exitStatus`, the value of
`recv_exit_status`) or some call of the exec/read/status sequence raises
(`failed partialStdout partialStderr exc`). -/
inductive CmdRun where
  | done : List String → List String → Int → CmdRun
  | failed : List String → List String → PyErr → CmdRun
deriving DecidableEq

/-- Final content of `stdout_buffer` after the exec/read sequence. -/
def CmdRun.outBuf : CmdRun → List String
  | .done o _ _ => o
  | .failed o _ _ => o

/-- Final content of `stderr_buffer` after the exec/read sequence. -/
def CmdRun.errBuf : CmdRun → List String
  | .done _ e _ => e
  | .failed _ e _ => e

/-- Value or exception of the exec/read/status sequence alone. -/
def runResult : CmdRun → Except PyErr Int
  | .done _ _ s => .ok s
  | .failed _ _ e => .error e

/-- Environment of one `execute_command` invocation: the outcome of every
connect attempt, of the three log-file operations (`open`, the header
`write`, and the `writelines` in the `finally` block; `none` = no fault), and
of the remote command run. -/
structure ExecEnv where
  connect : Nat → Option PyErr
  logOpen : Option PyErr
  logHeader : Option PyErr
  logFinal : Option PyErr
  run : CmdRun

/-- Result dictionary built by `execute_command` / `upload_and_execute`
(hostname, success, exit_code, stdout, stderr). -/
structure ExecResult where
  hostname : String
  success : Bool
  exit_code : Int
  stdout : String
  stderr : String
deriving DecidableEq

/-- Models Python truthiness of an optional string (`if log_dir:`): `None`
and the empty string are falsy. -/
def truthy : Option String → Bool
  | none => false
  | some s => !(s == "")

/-- Models the body of the `with` statement of `execute_command`
(multi_tool.py lines 71-84): open the log file and write the command header
when a log directory is given (either may raise), then run the command; the
value is the remote exit status. -/
def execBody (logDir : Option String) (env : ExecEnv) : Except PyErr Int :=
  if truthy logDir then
    match env.logOpen with
    | some e => .error e
    | none =>
        match env.logHeader with
        | some e => .error e
        | none => runResult env.run
  else runResult env.run

/-- Content of `stdout_buffer`/`stderr_buffer` after the body of
`execute_command` ran: empty if a log fault raised before `exec_command`. -/
def execBuffers (logDir : Option String) (env : ExecEnv) : List String × List String :=
  if truthy logDir && (env.logOpen.isSome || env.logHeader.isSome) then ([], [])
  else (env.run.outBuf, env.run.errBuf)

/-- Result record of `execute_command` (multi_tool.py lines 86-100): the
success record from the exit status, or the record built by the
`except paramiko.AuthenticationException` / `except Exception` clauses. -/
def mkExecResult (host : String) (res : Except PyErr Int)
    (bufs : List String × List String) : ExecResult :=
  match res with
  | .ok status =>
      { hostname := host, success := status == 0, exit_code := status,
        stdout := String.join bufs.1, stderr := String.join bufs.2 }
  | .error (.authErr m) =>
      { hostname := host, success := false, exit_code := -1, stdout := "",
        stderr := "FAILURE: Authentication failed on \x27" ++ host ++ "\x27: " ++ m }
  | .error e =>
      { hostname := host, success := false, exit_code := -1, stdout := "",
        stderr := "FAILURE: Could not connect or execute on \x27" ++ host ++ "\x27: " ++ e.msg }

/-- Log header line written by `execute_command` (multi_tool.py line 74). -/
def headerLine (command : String) : String :=
  "--- Command: " ++ command ++ " ---\n"

/-- Full observable outcome of `execute_command`: the returned result record
(or the exception escaping from a `writelines` fault in the `finally`
block), the connect/sleep trace, whether the session was closed, and the
lines written to the per-host log file (`none` = the file was never
opened). -/
structure ExecOut where
  result : Except PyErr ExecResult
  connects : Nat
  sleeps : Nat
  closed : Bool
  log : Option (List String)

/-- Models `RemoteOperation.execute_command` (multi_tool.py lines 60-106):
the connection context manager around the log/exec body, the two `except`
clauses turning any raised exception into a failure record, and the
`finally` block that appends `stdout_buffer + stderr_buffer` to the log file
when one was opened (a fault there escapes the function, replacing the
returned record). -/
def execute_command (host command : String) (logDir : Option String)
    (env : ExecEnv) : ExecOut :=
  let w := withConn env.connect (execBody logDir env)
  let bufs := if w.bodyRan then execBuffers logDir env else ([], [])
  let opened := w.bodyRan && truthy logDir && env.logOpen.isNone
  let tryVal := mkExecResult host w.res bufs
  let headerPart := if env.logHeader.isNone then [headerLine command] else []
  if opened then
    match env.logFinal with
    | some e =>
        { result := .error e, connects := w.connects, sleeps := w.sleeps,
          closed := w.closed, log := some headerPart }
    | none =>
        { result := .ok tryVal, connects := w.connects, sleeps := w.sleeps,
          closed := w.closed, log := some (headerPart ++ bufs.1 ++ bufs.2) }
  else
    { result := .ok tryVal, connects := w.connects, sleeps := w.sleeps,
      closed := w.closed, log := none }

/-- Environment of one `upload_and_execute` invocation: the connect attempts,
the outcome of the upload phase (`open_sftp`/`sftp.put`; `none` = the file
was uploaded), and the remote script run. -/
structure UploadEnv where
  connect : Nat → Option PyErr
  sftp : Option PyErr
  run : CmdRun

/-- Models the body of the `with` statement of `upload_and_execute`
(multi_tool.py lines 156-174): upload then execute, one session. -/
def uploadBody (env : UploadEnv) : Except PyErr Int :=
  match env.sftp with
  | some e => .error e
  | none => runResult env.run

/-- Buffer content after the body of `upload_and_execute` ran. -/
def uploadBuffers (env : UploadEnv) : List String × List String :=
  if env.sftp.isSome then ([], []) else (env.run.outBuf, env.run.errBuf)

/-- Result record of `upload_and_execute` (multi_tool.py lines 176-189); note
that, unlike `execute_command`, the generic `except Exception` clause keeps
the partially captured stdout (`"".join(stdout_buffer)`, line 188). -/
def mkUploadResult (host : String) (res : Except PyErr Int)
    (bufs : List String × List String) : ExecResult :=
  match res with
  | .ok status =>
      { hostname := host, success := status == 0, exit_code := status,
        stdout := String.join bufs.1, stderr := String.join bufs.2 }
  | .error (.authErr m) =>
      { hostname := host, success := false, exit_code := -1, stdout := "",
        stderr := "FAILURE: Authentication failed on \x27" ++ host ++ "\x27: " ++ m }
  | .error e =>
      { hostname := host, success := false, exit_code := -1,
        stdout := String.join bufs.1,
        stderr := "FAILURE: Could not upload or execute on \x27" ++ host ++ "\x27: " ++ e.msg }

/-- Observable outcome of `upload_and_execute`: the result record, the
connect/sleep trace, session closing, and the number of completed
`sftp.put` uploads. -/
structure UploadOut where
  result : ExecResult
  connects : Nat
  sleeps : Nat
  closed : Bool
  uploads : Nat

/-- Models `RemoteOperation.upload_and_execute` (multi_tool.py lines
149-189). -/
def upload_and_execute (host : String) (env : UploadEnv) : UploadOut :=
  let w := withConn env.connect (uploadBody env)
  let bufs := if w.bodyRan then uploadBuffers env else ([], [])
  { result := mkUploadResult host w.res bufs,
    connects := w.connects, sleeps := w.sleeps, closed := w.closed,
    uploads := if w.bodyRan && env.sftp.isNone then 1 else 0 }

/-- Result dictionary of `transfer_file` / `download_file` (hostname,
success, message). -/
structure MsgResult where
  hostname : String
  success : Bool
  message : String
deriving DecidableEq

/-- Environment of a `transfer_file` / `download_file` invocation. -/
structure XferEnv where
  connect : Nat → Option PyErr
  sftp : Option PyErr

/-- Observable outcome of `transfer_file` / `download_file`. -/
structure MsgOut where
  result : MsgResult
  connects : Nat
  sleeps : Nat
  closed : Bool

/-- Body of the `with` statement of the two file-transfer operations: the
SFTP open and transfer, which either completes or raises. -/
def xferBody (env : XferEnv) : Except PyErr Unit :=
  match env.sftp with
  | some e => .error e
  | none => .ok ()

/-- Models `str.startswith("/")`, used by `os.path.join` (posixpath). -/
def startsWithSlash (s : String) : Bool := s.data.head? == some '/'

/-- Models `str.endswith("/")`, used by `os.path.join` (posixpath). -/
def endsWithSlash (s : String) : Bool := s.data.getLast? == some '/'

/-- Models `os.path.basename` (posixpath): the suffix after the last `/`. -/
def basename (p : String) : String :=
  ⟨(p.data.reverse.takeWhile (fun c => c != '/')).reverse⟩

/-- Models the two-argument `os.path.join` (posixpath): an absolute second
component replaces the first; otherwise they are joined with `/` unless the
first is empty or already ends with `/`. -/
def osPathJoin (a b : String) : String :=
  if startsWithSlash b then b
  else if a = "" || endsWithSlash a then a ++ b
  else a ++ "/" ++ b

/-- Local path used by `download_file` (multi_tool.py lines 139-140):
`os.path.join(local_dir, f"{hostname}_{os.path.basename(remote_path)}")`. -/
def download_local_path (host remotePath localDir : String) : String :=
  osPathJoin localDir (host ++ "_" ++ basename remotePath)

/-- Models `RemoteOperation.transfer_file` (multi_tool.py lines 108-128). -/
def transfer_file (host : String) (env : XferEnv) : MsgOut :=
  let w := withConn env.connect (xferBody env)
  { result :=
      match w.res with
      | .ok _ =>
          { hostname := host, success := true,
            message := "File transferred to \x27" ++ host ++ "\x27." }
      | .error e =>
          { hostname := host, success := false,
            message := "Could not transfer to \x27" ++ host ++ "\x27: " ++ e.msg },
    connects := w.connects, sleeps := w.sleeps, closed := w.closed }

/-- Models `RemoteOperation.download_file` (multi_tool.py lines 130-147). -/
def download_file (host remotePath localDir : String) (env : XferEnv) : MsgOut :=
  let w := withConn env.connect (xferBody env)
  { result :=
      match w.res with
      | .ok _ =>
          { hostname := host, success := true,
            message := "File downloaded from \x27" ++ host ++ "\x27 to \x27" ++
              download_local_path host remotePath localDir ++ "\x27." }
      | .error e =>
          { hostname := host, success := false,
            message := "Could not download from \x27" ++ host ++ "\x27: " ++ e.msg },
    connects := w.connects, sleeps := w.sleeps, closed := w.closed }

/-- Synthetic failure record appended by the collection loop of
`handle_exec` when `future.result()` itself raises (multi_tool.py lines
221-227). -/
def syntheticFailure (client : String) (e : PyErr) : ExecResult :=
  { hostname := client, success := false, exit_code := -1, stdout := "",
    stderr := "EXCEPTION: An error occurred while processing host \x27" ++
      client ++ "\x27: " ++ e.msg }

/-- One iteration of the `as_completed` collection loop of `handle_exec`
(multi_tool.py lines 217-227): take the per-host task's result, or wrap the
exception it raised into a synthetic failure tagged with that host. -/
def collectOne (command : String) (logDir : Option String)
    (env : String → ExecEnv) (client : String) : ExecResult :=
  match (execute_command client command logDir (env client)).result with
  | .ok r => r
  | .error e => syntheticFailure client e

/-- Models the fan-out dispatch and collection of `handle_exec`
(multi_tool.py lines 207-227).  One task per target is submitted; `order`
is the completion order delivered by `as_completed` (a permutation of the
submitted targets); `env` gives each host's environment.  The collection
loop is total: no exception escapes it. -/
def collectResults (command : String) (logDir : Option String)
    (env : String → ExecEnv) (order : List String) : List ExecResult :=
  order.map (collectOne command logDir env)

/-- Models the `--log-dir` pre-phase of `handle_exec` (multi_tool.py lines
198-205): when `os.makedirs` fails the error is printed and `args.log_dir`
is reset to `None`; the run continues. -/
def effectiveLogDir (logDirArg : Option String) (makedirsOk : Bool) : Option String :=
  if truthy logDirArg then (if makedirsOk then logDirArg else none) else logDirArg

/-- Models `handle_exec` up to its collected result list (multi_tool.py
lines 192-227): the makedirs pre-phase followed by the fan-out. -/
def handle_exec_results (command : String) (logDirArg : Option String)
    (makedirsOk : Bool) (env : String → ExecEnv) (order : List String) :
    List ExecResult :=
  collectResults command (effectiveLogDir logDirArg makedirsOk) env order

/-- Models the `--json` rendering of `handle_exec` (multi_tool.py line 230):
`json.dumps(results, indent=2)` serializes the collected records in
completion order, without sorting. -/
def jsonReport (results : List ExecResult) : List ExecResult := results

/-- Lexicographic code-point comparison of two character sequences: exactly
Python's string comparison, used by
`sorted(results, key=lambda x: x["hostname"])`. -/
def charsLeB : List Char → List Char → Bool
  | [], _ => true
  | _ :: _, [] => false
  | a :: as, b :: bs =>
      if a < b then true
      else if a = b then charsLeB as bs
      else false

/-- Hostname key order of the console report. -/
def hostOrder (a b : ExecResult) : Prop :=
  charsLeB a.hostname.data b.hostname.data = true

instance : DecidableRel hostOrder :=
  fun a b => Bool.decEq (charsLeB a.hostname.data b.hostname.data) true

/-- Models the console rendering order of `handle_exec` (multi_tool.py line
232): one block per record of `sorted(results, key=lambda x:
x["hostname"])`.  Python's `sorted` is a stable sort, and a stable sort's
output is uniquely determined by the key order and the input order, so the
stable `insertionSort` computes the same list. -/
def consoleReport (results : List ExecResult) : List ExecResult :=
  results.insertionSort hostOrder

/-- Field set read from each record by both renderers: hostname, success,
exit code, stdout, stderr. -/
def resultFields (r : ExecResult) : String × Bool × Int × String × String :=
  (r.hostname, r.success, r.exit_code, r.stdout, r.stderr)

/-- Models `sum(1 for r in results if r["success"])` (multi_tool.py line
250). -/
def countSuccess (results : List ExecResult) : Nat :=
  results.countP (fun r => r.success)

/-- Models `sum(1 for r in results if not r["success"])` (multi_tool.py line
250). -/
def countFailure (results : List ExecResult) : Nat :=
  results.countP (fun r => !r.success)

/-- Models the exit of `main` (multi_tool.py lines 543-546):
`sys.exit(1)` iff `failure_count > 0`, else `sys.exit(0)`. -/
def exitFromCounts (failureCount : Nat) : Nat :=
  if failureCount > 0 then 1 else 0

/-- Models the process exit code of one run (multi_tool.py lines 505-546
together with the pre-dispatch file check of `handle_scp` /
`handle_upload_exec`, lines 254-256 and 345-347): exit 1 when no clients are
given and no default list is configured; exit 1 when the action needs a
local file that does not exist; otherwise dispatch on the effective client
list and exit by the failure count. -/
def processExitCode (clients defaultClients : List String)
    (localFileRequired localFileExists : Bool)
    (run : List String → List ExecResult) : Nat :=
  if clients.isEmpty && defaultClients.isEmpty then 1
  else if localFileRequired && !localFileExists then 1
  else exitFromCounts (countFailure (run (if clients.isEmpty then defaultClients else clients)))

/-- Models the state of the transport session handle owned by one
operation.  The close operation itself is the external collaborator's
(`paramiko.SSHClient.close`), specified in §4.1 of the spec as safe from any
state: closing moves any state, including a never-connected one, to
`shut`. -/
inductive SessState where
  | fresh | connected | shut
deriving DecidableEq

/-- Transition of `client.close()` on the session handle: total, and safe on
a handle whose connection was never established. -/
def closeSess : SessState → SessState := fun _ => .shut

/-- Containment of one string in another, by explicit decomposition. -/
def strContains (s sub : String) : Prop := ∃ a b : String, s = a ++ sub ++ b

/-- The attempt list of the retry loop. -/
theorem range_retries : List.range CONNECTION_RETRIES = [0, 1, 2] := rfl

/-- When every connect attempt fails, the context manager makes exactly
`CONNECTION_RETRIES` connect calls and `CONNECTION_RETRIES - 1` sleeps, the
body never runs, the last error is re-raised, and the client is closed. -/
theorem withConn_allFail (connect : Nat → Option PyErr) (body : Except PyErr β)
    (e0 e1 e2 : PyErr) (h0 : connect 0 = some e0) (h1 : connect 1 = some e1)
    (h2 : connect 2 = some e2) :
    withConn connect body =
      { res := .error e2, connects := 3, sleeps := 2, bodyRan := false, closed := true } := by
  simp [withConn, range_retries, genLoop, h0, h1, h2]

/-- When attempt `k` is the first successful connect and the body completes
normally, the context manager makes exactly `k + 1` connect calls and `k`
sleeps and returns the body's value, closing the client. -/
theorem withConn_ok (connect : Nat → Option PyErr) (b : β) (k : Nat)
    (hk : k < CONNECTION_RETRIES) (hs : connect k = none)
    (hf : ∀ i, i < k → (connect i).isSome) :
    withConn connect (.ok b) =
      { res := .ok b, connects := k + 1, sleeps := k, bodyRan := true, closed := true } := by
  have hk3 : k < 3 := hk
  interval_cases k
  · simp [withConn, range_retries, genLoop, hs]
  · obtain ⟨e0, h0⟩ := Option.isSome_iff_exists.mp (hf 0 (by omega))
    simp [withConn, range_retries, genLoop, hs, h0]
  · obtain ⟨e0, h0⟩ := Option.isSome_iff_exists.mp (hf 0 (by omega))
    obtain ⟨e1, h1⟩ := Option.isSome_iff_exists.mp (hf 1 (by omega))
    simp [withConn, range_retries, genLoop, hs, h0, h1]

/-- The generator loop closes the client on every path. -/
theorem genLoop_closed (connect : Nat → Option PyErr) :
    ∀ (l : List Nat) (body : Except PyErr β) (bt : Bool) (lastE : Option PyErr),
      (genLoop connect body l bt lastE).closed = true := by
  intro l
  induction l with
  | nil => intro body bt lastE; rfl
  | cons a rest ih =>
      intro body bt lastE
      simp only [genLoop]
      cases hc : connect a with
      | some e => simpa using ih body bt (some e)
      | none =>
          cases bt with
          | true => simp
          | false =>
              cases hb : body with
              | ok b => simp
              | error e => simpa using ih (.error e) true (some e)

/-- The connection context manager closes the client on every path. -/
theorem withConn_closed (connect : Nat → Option PyErr) (body : Except PyErr β) :
    (withConn connect body).closed = true :=
  genLoop_closed connect _ body _ _

/-- Every record built by `mkExecResult` is tagged with the given host. -/
theorem mkExecResult_hostname (host : String) (res : Except PyErr Int)
    (bufs : List String × List String) :
    (mkExecResult host res bufs).hostname = host := by
  unfold mkExecResult
  split <;> rfl

/-- Every record built by `mkUploadResult` is tagged with the given host. -/
theorem mkUploadResult_hostname (host : String) (res : Except PyErr Int)
    (bufs : List String × List String) :
    (mkUploadResult host res bufs).hostname = host := by
  unfold mkUploadResult
  split <;> rfl

/-- A result record returned by `execute_command` is tagged with the host the
operation was created for. -/
theorem execute_command_hostname (host command : String) (logDir : Option String)
    (env : ExecEnv) (r : ExecResult)
    (h : (execute_command host command logDir env).result = .ok r) :
    r.hostname = host := by
  simp only [execute_command] at h
  split at h
  · split at h
    · simp at h
    · injection h with h
      subst h
      exact mkExecResult_hostname _ _ _
  · injection h with h
    subst h
    exact mkExecResult_hostname _ _ _

/-- Every record collected by the dispatch loop of `handle_exec` is tagged
with the host it was collected for. -/
theorem collectOne_hostname (command : String) (logDir : Option String)
    (env : String → ExecEnv) (client : String) :
    (collectOne command logDir env client).hostname = client := by
  unfold collectOne
  cases h : (execute_command client command logDir (env client)).result with
  | ok r => exact execute_command_hostname client command logDir (env client) r h
  | error e => rfl

/-- Trace projections of `execute_command` equal those of its connection
context manager, on every branch of the function. -/
theorem execute_command_trace (host command : String) (logDir : Option String)
    (env : ExecEnv) :
    (execute_command host command logDir env).connects =
        (withConn env.connect (execBody logDir env)).connects ∧
      (execute_command host command logDir env).sleeps =
        (withConn env.connect (execBody logDir env)).sleeps ∧
      (execute_command host command logDir env).closed =
        (withConn env.connect (execBody logDir env)).closed := by
  simp only [execute_command]
  split
  · split <;> exact ⟨rfl, rfl, rfl⟩
  · exact ⟨rfl, rfl, rfl⟩

/-- Concrete environment whose connect attempts all succeed and whose remote
command exits 0. -/
def envOKW : ExecEnv :=
  { connect := fun _ => none, logOpen := none, logHeader := none,
    logFinal := none, run := .done ["ok\n"] [] 0 }

/-- Concrete environment whose connect attempts all fail. -/
def envFailW : ExecEnv :=
  { connect := fun _ => some (.err "no route to host"), logOpen := none,
    logHeader := none, logFinal := none, run := .done [] [] 0 }

/-- Claim C1: for every target list of size N passed to the fan-out dispatch
of `handle_exec`, exactly N OperationResult records are collected (one per
completion-order entry, which is a permutation of the targets), each tagged
with the hostname of the target it originated from; a task whose retrieval
raises is replaced by a synthetic failure record tagged with that host
(`collectOne` is total), so no target is dropped and no exception escapes
the dispatch loop. -/
theorem fanout_one_result_per_target (command : String) (logDir : Option String)
    (env : String → ExecEnv) (clients order : List String)
    (hperm : order.Perm clients) :
    (collectResults command logDir env order).length = clients.length ∧
    (collectResults command logDir env order).map ExecResult.hostname = order := by
  refine ⟨by simp [collectResults, hperm.length_eq], ?_⟩
  rw [collectResults, List.map_map]
  have hfun : (ExecResult.hostname ∘ collectOne command logDir env) = fun c => c := by
    funext c
    exact collectOne_hostname command logDir env c
  rw [hfun]
  exact List.map_id' order

/-- Witness for C1 at a two-target list collected in reversed completion
order, one host succeeding and one failing every connect attempt. -/
theorem fanout_one_result_per_target_witness :
    (collectResults "uptime" none
        (fun c => if c = "h1" then envOKW else envFailW) ["h2", "h1"]).length =
      (["h1", "h2"] : List String).length ∧
    (collectResults "uptime" none
        (fun c => if c = "h1" then envOKW else envFailW) ["h2", "h1"]).map
      ExecResult.hostname = ["h2", "h1"] :=
  fanout_one_result_per_target "uptime" none
    (fun c => if c = "h1" then envOKW else envFailW) ["h1", "h2"] ["h2", "h1"]
    (by decide)

/-- Claim C2: session establishment attempts up to `CONNECTION_RETRIES` (3)
connects; when every attempt fails there are exactly 3 connects and 2 sleeps
and `execute_command` returns (no exception) a record with `success = false`,
`exit_code = -1` and a message containing the last error's text; when the
first successful attempt is attempt `k` and the operation's body completes,
exactly `k + 1` connects and `k` sleeps happen — no further attempts after
a success. -/
theorem connection_retry_policy (host command : String) (logDir : Option String)
    (env : ExecEnv) :
    ((∀ i, i < CONNECTION_RETRIES → (env.connect i).isSome) →
      (execute_command host command logDir env).connects = CONNECTION_RETRIES ∧
      (execute_command host command logDir env).sleeps = CONNECTION_RETRIES - 1 ∧
      ∃ e r, env.connect (CONNECTION_RETRIES - 1) = some e ∧
        (execute_command host command logDir env).result = .ok r ∧
        r.success = false ∧ r.exit_code = -1 ∧ strContains r.stderr e.msg) ∧
    (∀ k, k < CONNECTION_RETRIES → env.connect k = none →
      (∀ i, i < k → (env.connect i).isSome) →
      (∃ s, execBody logDir env = .ok s) →
      (execute_command host command logDir env).connects = k + 1 ∧
      (execute_command host command logDir env).sleeps = k) := by
  obtain ⟨hc, hs, -⟩ := execute_command_trace host command logDir env
  constructor
  · intro hall
    obtain ⟨e0, h0⟩ := Option.isSome_iff_exists.mp (hall 0 (by decide))
    obtain ⟨e1, h1⟩ := Option.isSome_iff_exists.mp (hall 1 (by decide))
    obtain ⟨e2, h2⟩ := Option.isSome_iff_exists.mp (hall 2 (by decide))
    have hw := withConn_allFail env.connect (execBody logDir env) e0 e1 e2 h0 h1 h2
    refine ⟨by rw [hc, hw]; rfl, by rw [hs, hw]; rfl, e2,
      mkExecResult host (.error e2) ([], []), h2, ?_, ?_, ?_, ?_⟩
    · simp only [execute_command, hw]
      simp
    · cases e2 <;> rfl
    · cases e2 <;> rfl
    · cases e2 with
      | err m =>
          exact ⟨"FAILURE: Could not connect or execute on \x27" ++ host ++ "\x27: ",
            "", by simp [mkExecResult, PyErr.msg]⟩
      | authErr m =>
          exact ⟨"FAILURE: Authentication failed on \x27" ++ host ++ "\x27: ",
            "", by simp [mkExecResult, PyErr.msg]⟩
      | runtimeErr m =>
          exact ⟨"FAILURE: Could not connect or execute on \x27" ++ host ++ "\x27: ",
            "", by simp [mkExecResult, PyErr.msg]⟩
  · rintro k hk hsk hf ⟨s, hbody⟩
    have hw := withConn_ok env.connect s k hk hsk hf
    rw [hbody] at hc hs
    rw [hc, hs, hw]
    exact ⟨rfl, rfl⟩

/-- Witness for C2: the all-fail branch at an environment whose three
attempts fail, and the early-success branch at an environment succeeding on
the first attempt. -/
theorem connection_retry_policy_witness :
    ((execute_command "h" "uptime" none envFailW).connects = CONNECTION_RETRIES ∧
      (execute_command "h" "uptime" none envFailW).sleeps = CONNECTION_RETRIES - 1 ∧
      ∃ e r, envFailW.connect (CONNECTION_RETRIES - 1) = some e ∧
        (execute_command "h" "uptime" none envFailW).result = .ok r ∧
        r.success = false ∧ r.exit_code = -1 ∧ strContains r.stderr e.msg) ∧
    ((execute_command "h" "uptime" none envOKW).connects = 0 + 1 ∧
      (execute_command "h" "uptime" none envOKW).sleeps = 0) :=
  ⟨(connection_retry_policy "h" "uptime" none envFailW).1
      (fun i _ => by cases i <;> rfl),
    (connection_retry_policy "h" "uptime" none envOKW).2 0 (by decide) rfl
      (fun i hi => absurd hi (by omega)) ⟨0, rfl⟩⟩

/-- Claim C4: whenever `execute_command` reaches a remote exit status (the
connection eventually succeeds, the command run terminates with a status,
and no log fault intervenes), the returned record has `success = true` iff
the remote exit code is 0, and the remote exit code is preserved unchanged
in `exit_code`. -/
theorem execute_command_exit_classification (host command : String)
    (logDir : Option String) (env : ExecEnv) (o e : List String) (status : Int)
    (k : Nat) (hk : k < CONNECTION_RETRIES) (hsk : env.connect k = none)
    (hf : ∀ i, i < k → (env.connect i).isSome)
    (hrun : env.run = .done o e status)
    (hlog : truthy logDir = true →
      env.logOpen = none ∧ env.logHeader = none ∧ env.logFinal = none) :
    ∃ r, (execute_command host command logDir env).result = .ok r ∧
      (r.success = true ↔ status = 0) ∧ r.exit_code = status := by
  have hw := withConn_ok env.connect status k hk hsk hf
  refine ⟨mkExecResult host (.ok status) (env.run.outBuf, env.run.errBuf),
    ?_, by simp [mkExecResult], by simp [mkExecResult]⟩
  by_cases ht : truthy logDir = true
  · obtain ⟨ho, hh, hfin⟩ := hlog ht
    have hbody : execBody logDir env = .ok status := by
      simp [execBody, ht, ho, hh, hrun, runResult]
    simp only [execute_command, hbody, hw]
    simp [execBuffers, ht, ho, hh, hfin]
  · have ht2 : truthy logDir = false := by
      simpa using ht
    have hbody : execBody logDir env = .ok status := by
      simp [execBody, ht2, hrun, runResult]
    simp only [execute_command, hbody, hw]
    simp [execBuffers, ht2]

/-- Witness for C4 at a first-attempt connection and a remote exit code 0. -/
theorem execute_command_exit_classification_witness :
    ∃ r, (execute_command "h" "true" none envOKW).result = .ok r ∧
      (r.success = true ↔ (0 : Int) = 0) ∧ r.exit_code = 0 :=
  execute_command_exit_classification "h" "true" none envOKW ["ok\n"] [] 0 0
    (by decide) rfl (fun i hi => absurd hi (by omega)) rfl
    (fun h => absurd h (by decide))

/-- Record of a host whose command succeeded, for concrete instances. -/
def okRecord (h : String) : ExecResult :=
  { hostname := h, success := true, exit_code := 0, stdout := "", stderr := "" }

/-- Fan-out run in which every host's record reports success. -/
def runW : List String → List ExecResult :=
  fun l => l.map okRecord

/-- Claim C5: the process exit code is 0 iff the failure count over the
collected per-host results is 0 and 1 otherwise, and it is 1 on the two
pre-dispatch usage errors (empty target list with no configured default;
missing local file for an upload action). -/
theorem process_exit_code_spec (clients defaultClients : List String)
    (localFileRequired localFileExists : Bool)
    (run : List String → List ExecResult) :
    (clients.isEmpty = true → defaultClients.isEmpty = true →
      processExitCode clients defaultClients localFileRequired localFileExists run = 1) ∧
    (localFileRequired = true → localFileExists = false →
      processExitCode clients defaultClients localFileRequired localFileExists run = 1) ∧
    ((clients.isEmpty = false ∨ defaultClients.isEmpty = false) →
      (localFileRequired = false ∨ localFileExists = true) →
      (processExitCode clients defaultClients localFileRequired localFileExists run = 0 ↔
        countFailure (run (if clients.isEmpty then defaultClients else clients)) = 0) ∧
      (processExitCode clients defaultClients localFileRequired localFileExists run = 1 ↔
        0 < countFailure (run (if clients.isEmpty then defaultClients else clients)))) := by
  refine ⟨?_, ?_, ?_⟩
  · intro h1 h2
    simp [processExitCode, h1, h2]
  · intro h1 h2
    subst h1 h2
    simp only [processExitCode]
    split
    · rfl
    · rfl
  · intro hcd hlf
    have hb1 : (clients.isEmpty && defaultClients.isEmpty) = false := by
      rcases hcd with h | h <;> simp [h]
    have hb2 : (localFileRequired && !localFileExists) = false := by
      rcases hlf with h | h <;> simp [h]
    simp only [processExitCode, hb1, hb2, exitFromCounts, Bool.false_eq_true, if_false]
    rcases Nat.eq_zero_or_pos
        (countFailure (run (if clients.isEmpty then defaultClients else clients))) with
      hz | hp
    · rw [hz]
      simp
    · rw [if_pos hp]
      omega

/-- Witness for C5: both usage-error branches and the dispatch branch at an
all-success run over one host. -/
theorem process_exit_code_spec_witness :
    processExitCode [] [] false true runW = 1 ∧
    processExitCode ["a"] [] true false runW = 1 ∧
    ((processExitCode ["a"] [] false true runW = 0 ↔
        countFailure (runW (if List.isEmpty ["a"] then [] else ["a"])) = 0) ∧
      (processExitCode ["a"] [] false true runW = 1 ↔
        0 < countFailure (runW (if List.isEmpty ["a"] then [] else ["a"])))) :=
  ⟨(process_exit_code_spec [] [] false true runW).1 rfl rfl,
    (process_exit_code_spec ["a"] [] true false runW).2.1 rfl rfl,
    (process_exit_code_spec ["a"] [] false true runW).2.2 (Or.inl rfl) (Or.inl rfl)⟩

/-- Environment of an `upload_and_execute` run whose connect attempts always
succeed, whose upload completes, and whose remote execution then raises. -/
def envUploadThenThrow : UploadEnv :=
  { connect := fun _ => none, sftp := none,
    run := .failed ["partial\n"] [] (.err "connection reset") }

/-- Counterexample to claim C3: in a run whose upload succeeds and whose
remote execution then throws, the two-phase sequence is NOT re-run from the
upload.  The context manager catches the body's exception at its `yield`,
sleeps once, re-connects once — and its second `yield` makes `contextlib`
raise `RuntimeError`, which `upload_and_execute` reports as a transport
failure.  The upload phase runs exactly once, not twice. -/
theorem upload_retry_counterexample :
    ¬ 2 ≤ (upload_and_execute "h" envUploadThenThrow).uploads ∧
    (upload_and_execute "h" envUploadThenThrow).uploads = 1 ∧
    (upload_and_execute "h" envUploadThenThrow).connects = 2 ∧
    (upload_and_execute "h" envUploadThenThrow).sleeps = 1 ∧
    (upload_and_execute "h" envUploadThenThrow).result =
      { hostname := "h", success := false, exit_code := -1,
        stdout := "partial\n",
        stderr := "FAILURE: Could not upload or execute on \x27h\x27: " ++
          "generator didn\x27t stop after throw()" } := by
  decide

/-- Claim C3 amended: `upload_and_execute` is NOT a retry unit across its two
phases.  When the upload succeeds (on a first-attempt connection) and the
remote execution throws, and the immediate re-connect succeeds, the
operation does not re-run the sequence: the upload runs exactly once, one
retry sleep and one extra connect happen, and the operation returns a
transport-failure record (`success = false`, `exit_code = -1`) carrying the
`RuntimeError` message of the connection context manager instead of
re-attempting the upload. -/
theorem upload_not_rerun (host : String) (env : UploadEnv)
    (hsftp : env.sftp = none) (o e : List String) (er : PyErr)
    (hrun : env.run = .failed o e er)
    (h0 : env.connect 0 = none) (h1 : env.connect 1 = none) :
    (upload_and_execute host env).uploads = 1 ∧
    (upload_and_execute host env).connects = 2 ∧
    (upload_and_execute host env).sleeps = 1 ∧
    (upload_and_execute host env).result.success = false ∧
    (upload_and_execute host env).result.exit_code = -1 ∧
    (upload_and_execute host env).result.stderr =
      "FAILURE: Could not upload or execute on \x27" ++ host ++ "\x27: " ++
        "generator didn\x27t stop after throw()" := by
  have hbody : uploadBody env = .error er := by
    simp [uploadBody, hsftp, hrun, runResult]
  have hw : withConn env.connect (uploadBody env) =
      { res := .error (.runtimeErr "generator didn\x27t stop after throw()"),
        connects := 2, sleeps := 1, bodyRan := true, closed := true } := by
    simp [withConn, range_retries, genLoop, h0, h1, hbody]
  refine ⟨?_, ?_, ?_, ?_, ?_, ?_⟩ <;>
    simp [upload_and_execute, hw, mkUploadResult, uploadBuffers, hsftp, PyErr.msg]

/-- Witness for the amended C3 at the concrete environment of the
counterexample. -/
theorem upload_not_rerun_witness :
    (upload_and_execute "w" envUploadThenThrow).uploads = 1 ∧
    (upload_and_execute "w" envUploadThenThrow).connects = 2 ∧
    (upload_and_execute "w" envUploadThenThrow).sleeps = 1 ∧
    (upload_and_execute "w" envUploadThenThrow).result.success = false ∧
    (upload_and_execute "w" envUploadThenThrow).result.exit_code = -1 ∧
    (upload_and_execute "w" envUploadThenThrow).result.stderr =
      "FAILURE: Could not upload or execute on \x27" ++ "w" ++ "\x27: " ++
        "generator didn\x27t stop after throw()" :=
  upload_not_rerun "w" envUploadThenThrow rfl ["partial\n"] []
    (.err "connection reset") rfl rfl rfl

/-- Claim C9: every Remote Operation (`execute_command`, `transfer_file`,
`download_file`, `upload_and_execute`) closes its session on every exit
path before returning its result, and closing is idempotent and safe on a
handle whose connection was never established. -/
theorem session_always_closed (host command remotePath localDir : String)
    (logDir : Option String) (eenv : ExecEnv) (uenv : UploadEnv)
    (xenv yenv : XferEnv) :
    (execute_command host command logDir eenv).closed = true ∧
    (transfer_file host xenv).closed = true ∧
    (download_file host remotePath localDir yenv).closed = true ∧
    (upload_and_execute host uenv).closed = true ∧
    (∀ s : SessState, closeSess (closeSess s) = closeSess s) ∧
    closeSess .fresh = .shut := by
  obtain ⟨-, -, hcl⟩ := execute_command_trace host command logDir eenv
  exact ⟨by rw [hcl]; exact withConn_closed _ _, withConn_closed _ _,
    withConn_closed _ _, withConn_closed _ _, fun s => rfl, rfl⟩

/-- Claim C10: when `os.makedirs` fails for the requested log directory,
`handle_exec` resets the log directory to none and proceeds: the run is not
aborted and the collected results are exactly those of a run without
`--log-dir`. -/
theorem logdir_failure_disables_logging (command d : String) (hd : d ≠ "")
    (env : String → ExecEnv) (order : List String) :
    effectiveLogDir (some d) false = none ∧
    handle_exec_results command (some d) false env order =
      handle_exec_results command none true env order := by
  have he : effectiveLogDir (some d) false = none := by
    simp [effectiveLogDir, truthy, hd]
  refine ⟨he, ?_⟩
  rw [handle_exec_results, handle_exec_results, he]
  rfl

/-- Witness for C10 at a concrete directory, environment and target list. -/
theorem logdir_failure_disables_logging_witness :
    effectiveLogDir (some "/logs") false = none ∧
    handle_exec_results "uptime" (some "/logs") false (fun _ => envOKW) ["a"] =
      handle_exec_results "uptime" none true (fun _ => envOKW) ["a"] :=
  logdir_failure_disables_logging "uptime" "/logs" (by decide)
    (fun _ => envOKW) ["a"]

/-- Record of a host named `a` whose command succeeded. -/
def recA : ExecResult :=
  { hostname := "a", success := true, exit_code := 0, stdout := "out\n", stderr := "" }

/-- Record of a host named `b` whose command failed. -/
def recB : ExecResult :=
  { hostname := "b", success := false, exit_code := 1, stdout := "", stderr := "err\n" }

/-- Counterexample to claim C6: when the completion order is `[b, a]`, the
console report sorts the blocks to `[a, b]` but `json.dumps(results)` emits
the records in completion order `[b, a]` — the JSON sequence is not in the
console's hostname order. -/
theorem json_order_counterexample :
    consoleReport [recB, recA] = [recA, recB] ∧
    jsonReport [recB, recA] = [recB, recA] ∧
    jsonReport [recB, recA] ≠ consoleReport [recB, recA] := by
  decide

/-- Totality of the code-point comparison. -/
theorem charsLeB_total : ∀ xs ys : List Char,
    charsLeB xs ys = true ∨ charsLeB ys xs = true := by
  intro xs
  induction xs with
  | nil => intro ys; left; rfl
  | cons a as ih =>
      intro ys
      cases ys with
      | nil => right; rfl
      | cons b bs =>
          simp only [charsLeB]
          rcases lt_trichotomy a b with h | h | h
          · left; simp [h]
          · subst h
            rcases ih bs with h2 | h2
            · left; simp [lt_irrefl, h2]
            · right; simp [lt_irrefl, h2]
          · right; simp [h]

/-- Transitivity of the code-point comparison. -/
theorem charsLeB_trans : ∀ xs ys zs : List Char,
    charsLeB xs ys = true → charsLeB ys zs = true → charsLeB xs zs = true := by
  intro xs
  induction xs with
  | nil => intro ys zs _ _; rfl
  | cons a as ih =>
      intro ys zs h1 h2
      cases ys with
      | nil => simp [charsLeB] at h1
      | cons b bs =>
          cases zs with
          | nil => simp [charsLeB] at h2
          | cons c cs =>
              simp only [charsLeB] at h1 h2 ⊢
              by_cases hab : a < b
              · by_cases hbc : b < c
                · simp [lt_trans hab hbc]
                · by_cases hbc2 : b = c
                  · subst hbc2; simp [hab]
                  · simp [hbc, hbc2] at h2
              · by_cases hab2 : a = b
                · subst hab2
                  simp only [lt_irrefl, if_false, if_pos rfl] at h1
                  by_cases hac : a < c
                  · simp [hac]
                  · by_cases hac2 : a = c
                    · subst hac2
                      simp only [lt_irrefl, if_false, if_pos rfl] at h2 ⊢
                      exact ih bs cs h1 h2
                    · simp [hac, hac2] at h2
                · simp [hab, hab2] at h1

/-- Claim C6 amended: the structured (`--json`) report and the console
report are projections of the same per-host result records (the same
hostname/success/exit-code/stdout/stderr fields, as multisets); the console
report is sorted by hostname, but the JSON output is the collected list in
completion order, not in the console's hostname order. -/
theorem reports_projection (results : List ExecResult) :
    jsonReport results = results ∧
    (consoleReport results).Perm (jsonReport results) ∧
    ((consoleReport results).map resultFields).Perm
      ((jsonReport results).map resultFields) ∧
    List.Sorted hostOrder (consoleReport results) := by
  have hperm := List.perm_insertionSort hostOrder results
  refine ⟨rfl, hperm, hperm.map resultFields, ?_⟩
  haveI : IsTotal ExecResult hostOrder :=
    ⟨fun a b => charsLeB_total a.hostname.data b.hostname.data⟩
  haveI : IsTrans ExecResult hostOrder :=
    ⟨fun a b c => charsLeB_trans a.hostname.data b.hostname.data c.hostname.data⟩
  exact List.sorted_insertionSort _ results

/-- Environment whose connects succeed and whose remote command exits 0, but
whose log-file `open` raises. -/
def envLogOpenFault : ExecEnv :=
  { connect := fun _ => none, logOpen := some (.err "Permission denied"),
    logHeader := none, logFinal := none, run := .done ["ok\n"] [] 0 }

/-- Counterexample to claim C7: a fault while opening the log file DOES
change the command's reported outcome.  With a log directory configured the
`open` fault is thrown into the connection context manager, which retries
the connection and then raises `RuntimeError`, so a command that exits 0 is
reported as a transport failure; without logging the same environment
reports success. -/
theorem log_fault_counterexample :
    (execute_command "h" "date" none envLogOpenFault).result =
      .ok { hostname := "h", success := true, exit_code := 0,
            stdout := "ok\n", stderr := "" } ∧
    (execute_command "h" "date" (some "/logs") envLogOpenFault).result =
      .ok { hostname := "h", success := false, exit_code := -1, stdout := "",
            stderr := "FAILURE: Could not connect or execute on \x27h\x27: " ++
              "generator didn\x27t stop after throw()" } ∧
    ({ hostname := "h", success := false, exit_code := -1, stdout := "",
       stderr := "FAILURE: Could not connect or execute on \x27h\x27: " ++
         "generator didn\x27t stop after throw()" } : ExecResult) ≠
      { hostname := "h", success := true, exit_code := 0,
        stdout := "ok\n", stderr := "" } := by
  exact ⟨rfl, rfl, by decide⟩

/-- Claim C7 amended: when a log destination is configured and the log file
opens and writes without fault, the complete combined captured output
(command header, stdout lines, stderr lines) is written to the per-host log
file in addition to being returned, and the returned result record is
exactly the record of the same run without logging; a fault while opening
the log file, however, changes the reported outcome to a transport
failure. -/
theorem logging_success_path (host command d : String) (env : ExecEnv)
    (hd : d ≠ "") (o e : List String) (status : Int) (k : Nat)
    (hk : k < CONNECTION_RETRIES) (hsk : env.connect k = none)
    (hf : ∀ i, i < k → (env.connect i).isSome)
    (hrun : env.run = .done o e status)
    (ho : env.logOpen = none) (hh : env.logHeader = none)
    (hfin : env.logFinal = none) :
    (execute_command host command (some d) env).result =
      (execute_command host command none env).result ∧
    (execute_command host command (some d) env).log =
      some (headerLine command :: (o ++ e)) ∧
    (execute_command host command none env).log = none := by
  have hw := withConn_ok env.connect status k hk hsk hf
  have ht : truthy (some d) = true := by
    simp [truthy, hd]
  have htn : truthy (none : Option String) = false := rfl
  have hbodyN : execBody none env = .ok status := by
    simp [execBody, htn, hrun, runResult]
  have hbodyS : execBody (some d) env = .ok status := by
    simp [execBody, ht, ho, hh, hrun, runResult]
  refine ⟨?_, ?_, ?_⟩
  · simp only [execute_command, hbodyN, hbodyS, hw]
    simp [execBuffers, ht, htn, ho, hh, hfin]
  · simp only [execute_command, hbodyS, hw]
    simp [execBuffers, ht, ho, hh, hfin, hrun, CmdRun.outBuf, CmdRun.errBuf]
  · simp only [execute_command, hbodyN, hw]
    simp [htn]

/-- Witness for the amended C7 at a fault-free logging environment. -/
theorem logging_success_path_witness :
    (execute_command "h" "date" (some "/logs") envOKW).result =
      (execute_command "h" "date" none envOKW).result ∧
    (execute_command "h" "date" (some "/logs") envOKW).log =
      some (headerLine "date" :: (["ok\n"] ++ [])) ∧
    (execute_command "h" "date" none envOKW).log = none :=
  logging_success_path "h" "date" "/logs" envOKW (by decide) ["ok\n"] [] 0 0
    (by decide) rfl (fun i hi => absurd hi (by omega)) rfl rfl rfl rfl

/-- Counterexample to claim C8: with hostnames `x` and `/a/x` (the second
beginning with a slash, which `os.path.join` treats as absolute) and local
directory `/a`, downloading the same remote file `f` from the two distinct
hostnames yields the SAME local path `/a/x_f`. -/
theorem download_path_collision_counterexample :
    ("x" : String) ≠ "/a/x" ∧
    download_local_path "x" "f" "/a" = download_local_path "/a/x" "f" "/a" := by
  decide

/-- Two strings with equal data are equal. -/
theorem str_data_eq {s t : String} (h : s.data = t.data) : s = t := by
  cases s
  cases t
  exact congrArg String.mk h

/-- Right cancellation for string append. -/
theorem str_append_cancel_right (x y t : String) (h : x ++ t = y ++ t) :
    x = y := by
  apply str_data_eq
  have hd := congrArg String.data h
  rw [String.data_append, String.data_append] at hd
  exact List.append_cancel_right hd

/-- Left cancellation for string append. -/
theorem str_append_cancel_left (d x y : String) (h : d ++ x = d ++ y) :
    x = y := by
  apply str_data_eq
  have hd := congrArg String.data h
  rw [String.data_append, String.data_append] at hd
  exact List.append_cancel_left hd

/-- A tagged filename `host ++ "_" ++ b` of a non-absolute hostname is not
absolute. -/
theorem startsWithSlash_tag (h t : String) (hh : startsWithSlash h = false) :
    startsWithSlash (h ++ "_" ++ t) = false := by
  rw [startsWithSlash, beq_eq_false_iff_ne] at hh ⊢
  rw [String.data_append, String.data_append]
  cases hd : h.data with
  | nil => simp [String.data]
  | cons c cs =>
      rw [hd] at hh
      simpa using hh

/-- Claim C8 amended: downloading the same remote path from two targets with
different hostnames into one directory produces two distinct local paths,
provided neither hostname begins with `/` (a hostname beginning with `/`
makes `os.path.join` discard the directory, which can collide). -/
theorem download_paths_distinct (h1 h2 remotePath localDir : String)
    (hs1 : startsWithSlash h1 = false) (hs2 : startsWithSlash h2 = false)
    (hne : h1 ≠ h2) :
    download_local_path h1 remotePath localDir ≠
      download_local_path h2 remotePath localDir := by
  intro heq
  apply hne
  have hn1 := startsWithSlash_tag h1 (basename remotePath) hs1
  have hn2 := startsWithSlash_tag h2 (basename remotePath) hs2
  rw [download_local_path, download_local_path, osPathJoin, osPathJoin,
    hn1, hn2] at heq
  simp only [Bool.false_eq_true, if_false] at heq
  have hnames : h1 ++ "_" ++ basename remotePath =
      h2 ++ "_" ++ basename remotePath := by
    split at heq
    · exact str_append_cancel_left localDir _ _ heq
    · exact str_append_cancel_left (localDir ++ "/") _ _ heq
  exact str_append_cancel_right h1 h2 "_"
    (str_append_cancel_right _ _ (basename remotePath) hnames)

/-- Witness for the amended C8 at two ordinary hostnames. -/
theorem download_paths_distinct_witness :
    download_local_path "x" "f" "/a" ≠ download_local_path "y" "f" "/a" :=
  download_paths_distinct "x" "y" "f" "/a" rfl rfl (by decide)

end MultiTool
